import Mathlib

/-!
Formal model of the PHIL-FTP client (`Client/cli.py`) and server
(`Server/serv.py`).

Python byte strings are modelled as `List Nat` (each element a byte value),
Python `str` values as `List Char` (a sequence of Unicode code points, which is
what a Python `str` is), and the server's working directory as an association
list from path strings to file text.  The pervasive source quirk that matters
below: the Python code computes frame length fields with `len` applied to a
`str` (a character count) while the bytes actually sent are the UTF-8 encoding
of that `str` (a byte count), and the two differ on non-ASCII text.
-/

/-- Big-endian one-byte pack, modelling `struct.pack` with format `!B`
(callers guarantee the value fits in one byte). -/
def pack1 (n : Nat) : List Nat := [n % 256]

/-- Big-endian two-byte pack, modelling `struct.pack` with format `!H`
(callers pass a TCP port, which fits in two bytes). -/
def pack2 (n : Nat) : List Nat := [n / 256 % 256, n % 256]

/-- Big-endian four-byte pack, modelling `struct.pack` with format `!I`. -/
def pack4 (n : Nat) : List Nat :=
  [n / 16777216 % 256, n / 65536 % 256, n / 256 % 256, n % 256]

/-- Big-endian two-byte unpack, modelling `struct.unpack` with format `!H`. -/
def unpack2 (hi lo : Nat) : Nat := hi * 256 + lo

/-- Big-endian four-byte unpack, modelling `struct.unpack` with format `!I`. -/
def unpack4 : List Nat → Nat
  | [b0, b1, b2, b3] => b0 * 16777216 + b1 * 65536 + b2 * 256 + b3
  | _ => 0

/-- UTF-8 encoding of one Unicode code point (one character of a Python
`str`). -/
def utf8EncodeChar (c : Char) : List Nat :=
  let n := c.toNat
  if n < 128 then [n]
  else if n < 2048 then [192 + n / 64, 128 + n % 64]
  else if n < 65536 then [224 + n / 4096, 128 + n / 64 % 64, 128 + n % 64]
  else [240 + n / 262144, 128 + n / 4096 % 64, 128 + n / 64 % 64, 128 + n % 64]

/-- UTF-8 encoding of a Python `str`, modelling `s.encode` with encoding
UTF-8. -/
def utf8Encode (s : List Char) : List Nat := (s.map utf8EncodeChar).flatten

/-- Is the byte a UTF-8 continuation byte. -/
def isUtf8Cont (b : Nat) : Bool := 128 ≤ b && b ≤ 191

/-- Strict UTF-8 decoding, modelling `bytes.decode` with encoding UTF-8:
rejects truncated multi-byte sequences, stray continuation bytes, overlong
encodings, surrogate code points and code points above 0x10FFFF (Python raises
`UnicodeDecodeError` in those cases; the model returns `none`). -/
def utf8Decode : List Nat → Option (List Char)
  | [] => some []
  | b :: rest =>
    if b < 128 then
      (utf8Decode rest).map (fun cs => Char.ofNat b :: cs)
    else if b < 194 then none
    else if b < 224 then
      match rest with
      | c1 :: rest2 =>
        if isUtf8Cont c1 then
          (utf8Decode rest2).map
            (fun cs => Char.ofNat ((b - 192) * 64 + (c1 - 128)) :: cs)
        else none
      | [] => none
    else if b < 240 then
      match rest with
      | c1 :: c2 :: rest2 =>
        if (if b = 224 then 160 ≤ c1 && c1 ≤ 191
            else if b = 237 then 128 ≤ c1 && c1 ≤ 159
            else isUtf8Cont c1) && isUtf8Cont c2 then
          (utf8Decode rest2).map
            (fun cs =>
              Char.ofNat ((b - 224) * 4096 + (c1 - 128) * 64 + (c2 - 128)) :: cs)
        else none
      | _ => none
    else if b < 245 then
      match rest with
      | c1 :: c2 :: c3 :: rest2 =>
        if (if b = 240 then 144 ≤ c1 && c1 ≤ 191
            else if b = 244 then 128 ≤ c1 && c1 ≤ 143
            else isUtf8Cont c1) && isUtf8Cont c2 && isUtf8Cont c3 then
          (utf8Decode rest2).map
            (fun cs =>
              Char.ofNat
                ((b - 240) * 262144 + (c1 - 128) * 4096 + (c2 - 128) * 64
                  + (c3 - 128)) :: cs)
        else none
      | _ => none
    else none

/-- Control frame built by the client in `pack_and_send` (cli.py lines
221-235): one length byte computed from `len(payload)` — which counts the
CHARACTERS of the command string, not its encoded bytes — then two big-endian
port bytes, then the UTF-8 encoding of the command text.  Returns `none` when
the client refuses to send (`len(payload) > 255`, cli.py line 221). -/
def pack_and_send_frame (cmd : List Char) (port : Nat) : Option (List Nat) :=
  if cmd.length > 255 then none
  else some (pack1 cmd.length ++ pack2 port ++ utf8Encode cmd)

/-- Server-side decoding of one control frame from the control-connection byte
stream (`ClientThread.read_command`, serv.py lines 68-75): one size byte, two
port bytes, then `size` bytes of command text which are UTF-8 decoded.
Returns the decoded command text, the port, and the bytes left unconsumed on
the stream; `none` when the stream holds fewer than `size` text bytes or the
UTF-8 decode raises. -/
def read_command_decode (stream : List Nat) : Option (List Char × Nat × List Nat) :=
  match stream with
  | sz :: hi :: lo :: rest =>
    if rest.length < sz then none
    else
      match utf8Decode (rest.take sz) with
      | some cmd => some (cmd, unpack2 hi lo, rest.drop sz)
      | none => none
  | _ => none

/-- Data frame built by the client in `put` (cli.py lines 169-170): four
length bytes computed from `len(data)` — which counts the CHARACTERS of the
file text read in text mode — followed by the UTF-8 encoding of that text. -/
def cli_put_frame (data : List Char) : List Nat :=
  pack4 data.length ++ utf8Encode data

/-- Model of the chunked receive loops (cli.py `recv` lines 197-210, serv.py
`ClientThread._recv` lines 114-130 and `ClientThread._data_recv` lines
145-158): while fewer than `n` bytes have been collected, call
`connection.recv` asking for at most 2048 bytes, append whatever arrives, and
re-check the guard.  A `recv` on a connection whose peer has performed an
orderly close returns the empty byte string — it does not raise — so the loop
body appends nothing and the guard is re-checked unchanged.  The connection is
modelled by the list of bytes the peer delivers before closing; `fuel` bounds
the number of loop iterations examined, and `none` means the loop is still
running after that many iterations. -/
def recvLoop (fuel : Nat) (rem : List Nat) (acc : List Nat) (n : Nat) :
    Option (List Nat) :=
  match fuel with
  | 0 => none
  | fuel + 1 =>
    if acc.length < n then
      let k := min (n - acc.length) 2048
      recvLoop fuel (rem.drop k) (acc ++ rem.take k) n
    else some acc

/-- The server's working directory, modelled as an association list from path
strings (used exactly as the client sent them) to the character content Python
reads from the file in text mode. -/
abbrev Fs := List (String × List Char)

/-- Lookup of a path in the modelled directory; `none` models
`os.path.exists` returning False for it. -/
def lookupFs : Fs → String → Option (List Char)
  | [], _ => none
  | (k, v) :: rest, f => if k = f then some v else lookupFs rest f

/-- Does a Python filename string start with a dot, modelling
`self.filename.startswith` applied to a one-dot string (serv.py lines 194
and 228). -/
def startswithDot (f : String) : Bool :=
  match f.toList with
  | [] => false
  | c :: _ => c == '.'

/-- Observable actions a server command handler performs, in program order. -/
inductive Ev
  | connect                                 -- data_socket.connect to the advertised port
  | acq                                     -- file_lock acquired (with-statement entry)
  | rel                                     -- file_lock released (with-statement exit)
  | closeData                               -- data_socket shutdown and close
  | sendStatus (c : Char)                   -- one status byte on the control connection
  | sendData (bs : List Nat)                -- sendall on the data connection
  | recvUpload                              -- _data_recv of the upload payload
  | listDir                                 -- subprocess invocation of the directory listing
  | checkExists (f : String)                -- os.path.exists on the path
  | readFile (f : String)                   -- open for read plus read of the path
  | writeFile (f : String) (d : List Char)  -- open for write plus write of the path
deriving DecidableEq

/-- Result of one server command handler: the events it performed, the
directory afterwards, and whether the session's running flag is still set
(the handlers never touch `self.running`, so the session loop continues). -/
structure ServResult where
  events : List Ev
  fs : Fs
  runningAfter : Bool
deriving DecidableEq

/-- Status bytes sent on the control connection, in order. -/
def controlOf : List Ev → List Char
  | [] => []
  | Ev.sendStatus c :: rest => c :: controlOf rest
  | _ :: rest => controlOf rest

/-- Bytes sent on the data connection, in order. -/
def dataOf : List Ev → List Nat
  | [] => []
  | Ev.sendData bs :: rest => bs ++ dataOf rest
  | _ :: rest => dataOf rest

/-- The filesystem accesses among a list of events. -/
def fsAccOf : List Ev → List Ev
  | [] => []
  | Ev.checkExists f :: rest => Ev.checkExists f :: fsAccOf rest
  | Ev.readFile f :: rest => Ev.readFile f :: fsAccOf rest
  | Ev.writeFile f d :: rest => Ev.writeFile f d :: fsAccOf rest
  | Ev.listDir :: rest => Ev.listDir :: fsAccOf rest
  | _ :: rest => fsAccOf rest

/-- Model of `ClientThread.get` (serv.py lines 184-215).  The data socket is
connected first; a dot filename is refused before any filesystem access, a
nonexistent filename after the existence check, both by sending a zero-length
data frame then an F status, without acquiring the lock (and without closing
the data socket — the code returns early).  Otherwise the file is read under
the lock and sent in a data frame whose four length bytes come from
`len(data)`, the CHARACTER count of the text, while the payload is the UTF-8
encoding of the text. -/
def serv_get (fname : String) (fs : Fs) : ServResult :=
  if startswithDot fname then
    { events := [Ev.connect, Ev.sendData (pack4 0), Ev.sendStatus 'F'],
      fs := fs, runningAfter := true }
  else
    match lookupFs fs fname with
    | none =>
      { events := [Ev.connect, Ev.checkExists fname, Ev.sendData (pack4 0),
                   Ev.sendStatus 'F'],
        fs := fs, runningAfter := true }
    | some d =>
      { events := [Ev.connect, Ev.checkExists fname, Ev.acq, Ev.readFile fname,
                   Ev.rel, Ev.sendData (pack4 d.length ++ utf8Encode d),
                   Ev.closeData, Ev.sendStatus 'S'],
        fs := fs, runningAfter := true }

/-- Model of `ClientThread.put` (serv.py lines 217-252).  The data socket is
connected first; the whole body runs under the file lock: a dot filename or an
existing file is refused with a single F status and no payload receive;
otherwise an interim S status is sent, the upload payload is received and
written, and a final status reflects success.  `upload` is the decoded upload
payload; `none` models the `except` branch (a decode or write error), after
which the final status is F and the directory is unchanged.  The data socket
is shut down and closed after the locked section in every branch. -/
def serv_put (fname : String) (upload : Option (List Char)) (fs : Fs) : ServResult :=
  if startswithDot fname then
    { events := [Ev.connect, Ev.acq, Ev.sendStatus 'F', Ev.rel, Ev.closeData],
      fs := fs, runningAfter := true }
  else if (lookupFs fs fname).isSome then
    { events := [Ev.connect, Ev.acq, Ev.checkExists fname, Ev.sendStatus 'F',
                 Ev.rel, Ev.closeData],
      fs := fs, runningAfter := true }
  else
    match upload with
    | some d =>
      { events := [Ev.connect, Ev.acq, Ev.checkExists fname, Ev.sendStatus 'S',
                   Ev.recvUpload, Ev.writeFile fname d, Ev.sendStatus 'S',
                   Ev.rel, Ev.closeData],
        fs := (fname, d) :: fs, runningAfter := true }
    | none =>
      { events := [Ev.connect, Ev.acq, Ev.checkExists fname, Ev.sendStatus 'S',
                   Ev.recvUpload, Ev.sendStatus 'F', Ev.rel, Ev.closeData],
        fs := fs, runningAfter := true }

/-- Model of `ClientThread.ls` (serv.py lines 160-182).  The listing is taken
under the lock as a raw byte string.  When it is empty an F status is sent on
the control connection, and then — the code has no early return — the handler
still connects to the client's data port, sends the data frame (four length
bytes from `len(listing)`, a byte count here since the listing is `bytes`,
then the listing itself) and sends a second, S status. -/
def serv_ls_events (listing : List Nat) : List Ev :=
  [Ev.acq, Ev.listDir, Ev.rel]
    ++ (if listing.isEmpty then [Ev.sendStatus 'F'] else [])
    ++ [Ev.connect, Ev.sendData (pack4 listing.length ++ listing),
        Ev.sendStatus 'S']

/-- What the client does with a status byte it has read from the control
connection. -/
inductive StatusAction
  | reportFailure      -- failure message on stdout, session continues
  | opSuccess          -- success path of the operation, session continues
  | unexpectedLogged   -- unexpected-status message on stderr, session continues
  | fatalExit          -- disconnect_and_exit: control socket closed, process exits
deriving DecidableEq

/-- Does the action terminate the client session. -/
def isFatal : StatusAction → Bool
  | StatusAction.fatalExit => true
  | _ => false

/-- Status handling in the client's `ls` (cli.py lines 117-123); `none` models
the empty read of a closed connection. -/
def cli_ls_status (st : Option Char) : StatusAction :=
  match st with
  | none => StatusAction.reportFailure
  | some c =>
    if c = 'F' then StatusAction.reportFailure
    else if c = 'S' then StatusAction.opSuccess
    else StatusAction.unexpectedLogged

/-- Status handling in the client's `get` (cli.py lines 135-144), identical in
structure to the one in `ls`. -/
def cli_get_status (st : Option Char) : StatusAction :=
  match st with
  | none => StatusAction.reportFailure
  | some c =>
    if c = 'F' then StatusAction.reportFailure
    else if c = 'S' then StatusAction.opSuccess
    else StatusAction.unexpectedLogged

/-- Handling of the interim status in the client's `put` (cli.py lines
157-165): F aborts the upload but keeps the session; anything other than S —
including an empty read — logs a message, shuts the data socket and calls
`disconnect_and_exit`; S proceeds with the upload. -/
def cli_put_first_status (st : Option Char) : StatusAction :=
  if st = some 'F' then StatusAction.reportFailure
  else if st ≠ some 'S' then StatusAction.fatalExit
  else StatusAction.opSuccess

/-- Handling of the final status in the client's `put` (cli.py lines
172-179), identical in structure to the one in `ls`. -/
def cli_put_second_status (st : Option Char) : StatusAction :=
  match st with
  | none => StatusAction.reportFailure
  | some c =>
    if c = 'F' then StatusAction.reportFailure
    else if c = 'S' then StatusAction.opSuccess
    else StatusAction.unexpectedLogged

/-- The characters Python's `str.split` with no argument splits on (the
Unicode whitespace set of `str.isspace`). -/
def pyIsSpace (c : Char) : Bool :=
  decide ((9 ≤ c.toNat ∧ c.toNat ≤ 13) ∨ (28 ≤ c.toNat ∧ c.toNat ≤ 31)
    ∨ c.toNat = 32 ∨ c.toNat = 133 ∨ c.toNat = 160 ∨ c.toNat = 5760
    ∨ (8192 ≤ c.toNat ∧ c.toNat ≤ 8202) ∨ c.toNat = 8232 ∨ c.toNat = 8233
    ∨ c.toNat = 8239 ∨ c.toNat = 8287 ∨ c.toNat = 12288)

/-- Helper for `pySplit`: accumulates the current token in reverse. -/
def pySplitAux : List Char → List Char → List (List Char)
  | [], cur => if cur.isEmpty then [] else [cur.reverse]
  | c :: rest, cur =>
    if pyIsSpace c then
      if cur.isEmpty then pySplitAux rest [] else cur.reverse :: pySplitAux rest []
    else pySplitAux rest (c :: cur)

/-- Python's `command.split()` with no argument: split on runs of whitespace,
discarding empty tokens. -/
def pySplit (s : List Char) : List (List Char) := pySplitAux s []

/-- Fate of the server session after one command round. -/
inductive SessionOutcome
  | continues    -- back to read_command in the run loop
  | terminated   -- kill() ran: running cleared, control connection torn down
  | crashed      -- an unhandled exception escaped the run loop
deriving DecidableEq

/-- Fate of the session together with how many times the control connection
was shut down and closed along the way. -/
structure HandleResult where
  outcome : SessionOutcome
  closes : Nat
deriving DecidableEq

/-- Dispatch in `ClientThread.serve_command` (serv.py lines 94-110) for a
command that `read_command` split into tokens after seeing a get/put prefix.
With exactly two tokens, `self.command` is the FIRST TOKEN, whatever it is:
`get`/`put` dispatch to the handlers (modelled as a normal return to the
loop); any other first token falls to the final `else`, whose log statement
references the unbound name `command` and raises `NameError` — the exception
escapes `run`, so the thread dies without the tear-down that `kill` performs.
With any other number of tokens the tuple unpacking in `read_command` (serv.py
line 80) raises `ValueError`, which is caught: `kill()` shuts down and closes
the control connection (one close; the later `kill` from `serve_command` and
the close after the run loop find the connection already gone and do
nothing). -/
def dispatchGetPut (toks : List (List Char)) : HandleResult :=
  match toks with
  | [c, _] =>
    if c = ['g', 'e', 't'] ∨ c = ['p', 'u', 't'] then
      { outcome := SessionOutcome.continues, closes := 0 }
    else
      { outcome := SessionOutcome.crashed, closes := 0 }
  | _ => { outcome := SessionOutcome.terminated, closes := 1 }

/-- Combined effect of `ClientThread.read_command` (serv.py lines 76-92) and
`ClientThread.serve_command` (serv.py lines 94-110) on one decoded command
text, as seen from the run loop (serv.py lines 284-293).  The text is taken
verbatim when it is ls or quit; a text whose first three characters are get or
put is split; anything else is an invalid command: `kill()` closes the control
connection once and the loop exits (the close in the run-loop tail hits the
nulled connection attribute, raises, and is swallowed). -/
def handleCommandText (t : List Char) : HandleResult :=
  if t = ['l', 's'] then { outcome := SessionOutcome.continues, closes := 0 }
  else if t = ['q', 'u', 'i', 't'] then
    { outcome := SessionOutcome.terminated, closes := 1 }
  else if t.take 3 = ['g', 'e', 't'] ∨ t.take 3 = ['p', 'u', 't'] then
    dispatchGetPut (pySplit t)
  else { outcome := SessionOutcome.terminated, closes := 1 }

/-- Program counter of one server thread running `ClientThread.put`
(serv.py lines 217-252), one point per statement the model distinguishes.
The success path is pStart (about to connect), pAcquire, pCheck (dot and
existence checks under the lock), pSendS1, pRecv, pWrite, pSendS2, pRelease,
pClose, pDoneOk; the refusal path leaves pCheck for pSendF, pReleaseF,
pCloseF, pDoneFail. -/
inductive PutPC
  | pStart | pAcquire | pCheck | pSendS1 | pRecv | pWrite | pSendS2
  | pRelease | pClose | pDoneOk
  | pSendF | pReleaseF | pCloseF | pDoneFail
deriving DecidableEq

/-- Is the program counter inside the locked section of `put` (between the
acquisition and the release of the file lock, ends included up to the release
point itself)? -/
def inCS : PutPC → Bool
  | PutPC.pStart | PutPC.pAcquire | PutPC.pClose | PutPC.pDoneOk
  | PutPC.pCloseF | PutPC.pDoneFail => false
  | _ => true

/-- Has the thread already executed its file write? -/
def wrotePC : PutPC → Bool
  | PutPC.pSendS2 | PutPC.pRelease | PutPC.pClose | PutPC.pDoneOk => true
  | _ => false

/-- Is the program counter off the refusal path? -/
def okPC : PutPC → Bool
  | PutPC.pSendF | PutPC.pReleaseF | PutPC.pCloseF | PutPC.pDoneFail => false
  | _ => true

/-- Shared state of two server threads concurrently running
`ClientThread.put`: the directory, which thread (if any) holds the single
shared `_FILE_LOCK` (serv.py line 34), and the two program counters; thread
`false` stores `n0` with payload `p0`, thread `true` stores `n1` with
payload `p1`. -/
structure TwoPutState where
  fs : Fs
  lockBy : Option Bool
  pcF : PutPC
  pcT : PutPC
deriving DecidableEq

/-- One step of one thread executing `ClientThread.put` against the shared
state: connect, then block until the lock is free, then run the locked body
(check, interim S, receive, write, final S), release, close.  A thread whose
acquire finds the lock held makes no progress (threading.Lock blocks). -/
def putStep (me : Bool) (nm : String) (pl : List Char) (pc : PutPC) (fs : Fs)
    (lk : Option Bool) : PutPC × Fs × Option Bool :=
  match pc with
  | PutPC.pStart => (PutPC.pAcquire, fs, lk)
  | PutPC.pAcquire =>
    if lk = none then (PutPC.pCheck, fs, some me) else (PutPC.pAcquire, fs, lk)
  | PutPC.pCheck =>
    if startswithDot nm || (lookupFs fs nm).isSome then (PutPC.pSendF, fs, lk)
    else (PutPC.pSendS1, fs, lk)
  | PutPC.pSendS1 => (PutPC.pRecv, fs, lk)
  | PutPC.pRecv => (PutPC.pWrite, fs, lk)
  | PutPC.pWrite => (PutPC.pSendS2, (nm, pl) :: fs, lk)
  | PutPC.pSendS2 => (PutPC.pRelease, fs, lk)
  | PutPC.pRelease => (PutPC.pClose, fs, none)
  | PutPC.pClose => (PutPC.pDoneOk, fs, lk)
  | PutPC.pDoneOk => (PutPC.pDoneOk, fs, lk)
  | PutPC.pSendF => (PutPC.pReleaseF, fs, lk)
  | PutPC.pReleaseF => (PutPC.pCloseF, fs, none)
  | PutPC.pCloseF => (PutPC.pDoneFail, fs, lk)
  | PutPC.pDoneFail => (PutPC.pDoneFail, fs, lk)

/-- Schedule one step of the chosen thread. -/
def twoPutStep (n0 : String) (p0 : List Char) (n1 : String) (p1 : List Char)
    (s : TwoPutState) (th : Bool) : TwoPutState :=
  if th then
    let r := putStep true n1 p1 s.pcT s.fs s.lockBy
    { fs := r.2.1, lockBy := r.2.2, pcF := s.pcF, pcT := r.1 }
  else
    let r := putStep false n0 p0 s.pcF s.fs s.lockBy
    { fs := r.2.1, lockBy := r.2.2, pcF := r.1, pcT := s.pcT }

/-- Run the two threads under an arbitrary interleaving (a list of thread
choices), starting from directory `fs0`, both threads about to connect. -/
def twoPutRun (n0 : String) (p0 : List Char) (n1 : String) (p1 : List Char)
    (fs0 : Fs) (sched : List Bool) : TwoPutState :=
  sched.foldl (twoPutStep n0 p0 n1 p1)
    { fs := fs0, lockBy := none, pcF := PutPC.pStart, pcT := PutPC.pStart }

/-- Invariant of the two-thread run: a thread is inside the locked section
exactly when it holds the lock, neither thread ever enters the refusal path
(its filename is fresh and not a dot file), and each of the two uploaded
filenames maps to its own payload exactly once the owning thread has passed
its write. -/
def TwoPutInv (n0 : String) (p0 : List Char) (n1 : String) (p1 : List Char)
    (s : TwoPutState) : Prop :=
  (inCS s.pcF = true ↔ s.lockBy = some false) ∧
  (inCS s.pcT = true ↔ s.lockBy = some true) ∧
  okPC s.pcF = true ∧ okPC s.pcT = true ∧
  lookupFs s.fs n0 = (if wrotePC s.pcF then some p0 else none) ∧
  lookupFs s.fs n1 = (if wrotePC s.pcT then some p1 else none)

/-- One scheduled step preserves the two-thread invariant, provided the two
filenames are distinct, neither is a dot file, and (through the invariant)
neither existed beforehand. -/
theorem twoPutStep_inv (n0 n1 : String) (p0 p1 : List Char)
    (hne : ¬ n0 = n1) (hd0 : startswithDot n0 = false)
    (hd1 : startswithDot n1 = false) (s : TwoPutState) (th : Bool)
    (hinv : TwoPutInv n0 p0 n1 p1 s) :
    TwoPutInv n0 p0 n1 p1 (twoPutStep n0 p0 n1 p1 s th) := by
  obtain ⟨l0, l1, k0, k1, f0, f1⟩ := hinv
  have hne' : ¬ n1 = n0 := fun h => hne h.symm
  cases th
  case false =>
    cases hpc : s.pcF
    case pStart =>
      simp_all [TwoPutInv, twoPutStep, putStep, inCS, wrotePC, okPC]
    case pAcquire =>
      by_cases hlk : s.lockBy = none <;>
        simp_all [TwoPutInv, twoPutStep, putStep, inCS, wrotePC, okPC]
    case pCheck =>
      simp_all [TwoPutInv, twoPutStep, putStep, inCS, wrotePC, okPC]
    case pSendS1 =>
      simp_all [TwoPutInv, twoPutStep, putStep, inCS, wrotePC, okPC]
    case pRecv =>
      simp_all [TwoPutInv, twoPutStep, putStep, inCS, wrotePC, okPC]
    case pWrite =>
      simp_all [TwoPutInv, twoPutStep, putStep, inCS, wrotePC, okPC, lookupFs]
    case pSendS2 =>
      simp_all [TwoPutInv, twoPutStep, putStep, inCS, wrotePC, okPC]
    case pRelease =>
      simp_all [TwoPutInv, twoPutStep, putStep, inCS, wrotePC, okPC]
    case pClose =>
      simp_all [TwoPutInv, twoPutStep, putStep, inCS, wrotePC, okPC]
    case pDoneOk =>
      simp_all [TwoPutInv, twoPutStep, putStep, inCS, wrotePC, okPC]
    case pSendF => simp_all [okPC]
    case pReleaseF => simp_all [okPC]
    case pCloseF => simp_all [okPC]
    case pDoneFail => simp_all [okPC]
  case true =>
    cases hpc : s.pcT
    case pStart =>
      simp_all [TwoPutInv, twoPutStep, putStep, inCS, wrotePC, okPC]
    case pAcquire =>
      by_cases hlk : s.lockBy = none <;>
        simp_all [TwoPutInv, twoPutStep, putStep, inCS, wrotePC, okPC]
    case pCheck =>
      simp_all [TwoPutInv, twoPutStep, putStep, inCS, wrotePC, okPC]
    case pSendS1 =>
      simp_all [TwoPutInv, twoPutStep, putStep, inCS, wrotePC, okPC]
    case pRecv =>
      simp_all [TwoPutInv, twoPutStep, putStep, inCS, wrotePC, okPC]
    case pWrite =>
      simp_all [TwoPutInv, twoPutStep, putStep, inCS, wrotePC, okPC, lookupFs]
    case pSendS2 =>
      simp_all [TwoPutInv, twoPutStep, putStep, inCS, wrotePC, okPC]
    case pRelease =>
      simp_all [TwoPutInv, twoPutStep, putStep, inCS, wrotePC, okPC]
    case pClose =>
      simp_all [TwoPutInv, twoPutStep, putStep, inCS, wrotePC, okPC]
    case pDoneOk =>
      simp_all [TwoPutInv, twoPutStep, putStep, inCS, wrotePC, okPC]
    case pSendF => simp_all [okPC]
    case pReleaseF => simp_all [okPC]
    case pCloseF => simp_all [okPC]
    case pDoneFail => simp_all [okPC]

/-- The invariant holds at every state reachable under any schedule, starting
from a directory containing neither filename. -/
theorem twoPutRun_inv (n0 n1 : String) (p0 p1 : List Char) (fs0 : Fs)
    (hne : ¬ n0 = n1) (hd0 : startswithDot n0 = false)
    (hd1 : startswithDot n1 = false) (hf0 : lookupFs fs0 n0 = none)
    (hf1 : lookupFs fs0 n1 = none) (sched : List Bool) :
    TwoPutInv n0 p0 n1 p1 (twoPutRun n0 p0 n1 p1 fs0 sched) := by
  have hbase : TwoPutInv n0 p0 n1 p1
      { fs := fs0, lockBy := none, pcF := PutPC.pStart, pcT := PutPC.pStart } := by
    refine ⟨?_, ?_, ?_, ?_, ?_, ?_⟩ <;> simp [inCS, wrotePC, okPC, hf0, hf1]
  have hstep : ∀ (l : List Bool) (s : TwoPutState), TwoPutInv n0 p0 n1 p1 s →
      TwoPutInv n0 p0 n1 p1 (l.foldl (twoPutStep n0 p0 n1 p1) s) := by
    intro l
    induction l with
    | nil => intro s hs; exact hs
    | cons b rest ih =>
      intro s hs
      exact ih _ (twoPutStep_inv n0 n1 p0 p1 hne hd0 hd1 s b hs)
  exact hstep sched _ hbase

/-- C1: the control-frame round-trip FAILS on the code for valid command
texts with non-ASCII filenames.  On the command text get followed by a
space and one e-acute character (five characters, six UTF-8 bytes, well under
the 255 limit) the client's encoder emits a length byte of 5 — `len` of the
`str`, a character count — while sending six bytes of command text; the
server's decoder therefore reads only the first five text bytes, whose strict
UTF-8 decode fails (Python raises `UnicodeDecodeError`), so decoding does not
yield back the command and leaves a stray byte on the stream. -/
theorem controlFrame_charCount_mismatch :
    pack_and_send_frame ['g', 'e', 't', ' ', 'é'] 7
      = some [5, 0, 7, 103, 101, 116, 32, 195, 169] ∧
    (utf8Encode ['g', 'e', 't', ' ', 'é']).length = 6 ∧
    read_command_decode [5, 0, 7, 103, 101, 116, 32, 195, 169] = none := by
  decide

/-- C2: data-frame well-formedness FAILS on the code for file content whose
UTF-8 encoding is longer than its character count.  For the one-character
file text e-acute, both the client's upload frame in `put` and the server's
download frame in `get` carry a four-byte length field decoding to 1 — the
character count — followed by 2 payload bytes. -/
theorem dataFrame_payloadLength_mismatch :
    cli_put_frame ['é'] = [0, 0, 0, 1, 195, 169] ∧
    unpack4 ((cli_put_frame ['é']).take 4) = 1 ∧
    ((cli_put_frame ['é']).drop 4).length = 2 ∧
    dataOf (serv_get "f" [("f", ['é'])]).events = [0, 0, 0, 1, 195, 169] := by
  decide

/-- Helper for C3: with any starting accumulator, a connection that closes
before enough bytes exist never lets the receive loop produce a result, no
matter how many iterations run. -/
theorem recvLoop_short_gen (fuel : Nat) :
    ∀ (rem acc : List Nat) (n : Nat), acc.length + rem.length < n →
      recvLoop fuel rem acc n = none := by
  induction fuel with
  | zero => intro rem acc n _; rfl
  | succ f ih =>
    intro rem acc n h
    have hlt : acc.length < n := by omega
    simp only [recvLoop, if_pos hlt]
    apply ih
    simp only [List.length_append, List.length_take, List.length_drop]
    omega

/-- C3: the exact-read routine is NOT total on short reads.  When the peer
closes after delivering fewer than `n` bytes, `recv` keeps returning the empty
byte string, the loop appends nothing and re-checks its guard forever: for
every iteration bound the loop has still not produced a result.  It indeed
never returns fewer than `n` bytes as a success — but only because it never
returns at all, instead of failing with ConnectionLost as the claim states. -/
theorem recvLoop_spins_on_short_connection (fuel n : Nat)
    (delivered : List Nat) (hshort : delivered.length < n) :
    recvLoop fuel delivered [] n = none :=
  recvLoop_short_gen fuel delivered [] n (by simpa using hshort)

/-- Witness for C3 at a concrete input: asking for 4 bytes from a connection
closed after 0 bytes is still unfinished after 1000 iterations. -/
theorem recvLoop_spins_on_short_connection_witness :
    ([] : List Nat).length < 4 ∧ recvLoop 1000 [] [] 4 = none :=
  ⟨by decide, recvLoop_spins_on_short_connection 1000 4 [] (by decide)⟩

/-- C4: a `put` whose filename already exists on the server, or begins with a
dot, is refused atomically: the server sends exactly one F status, performs no
payload receive, leaves the directory (hence the existing file's bytes)
unchanged, and the session's running flag stays set so the loop awaits the
next command. -/
theorem put_refusal_atomic (fname : String) (upload : Option (List Char))
    (fs : Fs)
    (hrefuse : startswithDot fname = true ∨ (lookupFs fs fname).isSome = true) :
    controlOf (serv_put fname upload fs).events = ['F'] ∧
    Ev.recvUpload ∉ (serv_put fname upload fs).events ∧
    (serv_put fname upload fs).fs = fs ∧
    (serv_put fname upload fs).runningAfter = true := by
  rcases hrefuse with h | h
  · refine ⟨?_, ?_, ?_, ?_⟩ <;> simp [serv_put, h, controlOf]
  · by_cases hd : startswithDot fname <;>
      refine ⟨?_, ?_, ?_, ?_⟩ <;> simp [serv_put, hd, h, controlOf]

/-- Witness for C4 at a concrete input: putting an already-present file. -/
theorem put_refusal_atomic_witness :
    (startswithDot "data.txt" = true ∨
      (lookupFs [("data.txt", ['h', 'i'])] "data.txt").isSome = true) ∧
    controlOf
        (serv_put "data.txt" (some ['n', 'o']) [("data.txt", ['h', 'i'])]).events
      = ['F'] ∧
    Ev.recvUpload ∉
      (serv_put "data.txt" (some ['n', 'o']) [("data.txt", ['h', 'i'])]).events ∧
    (serv_put "data.txt" (some ['n', 'o']) [("data.txt", ['h', 'i'])]).fs
      = [("data.txt", ['h', 'i'])] ∧
    (serv_put "data.txt" (some ['n', 'o'])
        [("data.txt", ['h', 'i'])]).runningAfter = true := by
  have h := put_refusal_atomic "data.txt" (some ['n', 'o'])
    [("data.txt", ['h', 'i'])] (Or.inr (by decide))
  exact ⟨Or.inr (by decide), h.1, h.2.1, h.2.2.1, h.2.2.2⟩

/-- C5: a `get` whose filename begins with a dot or names a nonexistent file
sends exactly the zero-length data frame on the data connection and a single F
status on the control connection — the frame before the status, as the
trailing pair of events shows — acquires no lock, touches the filesystem at
most for the existence check, and changes nothing. -/
theorem get_failure_path (fname : String) (fs : Fs)
    (hfail : startswithDot fname = true ∨ lookupFs fs fname = none) :
    dataOf (serv_get fname fs).events = pack4 0 ∧
    controlOf (serv_get fname fs).events = ['F'] ∧
    Ev.acq ∉ (serv_get fname fs).events ∧
    (∀ e ∈ fsAccOf (serv_get fname fs).events, e = Ev.checkExists fname) ∧
    (serv_get fname fs).fs = fs ∧
    (∃ pre, (serv_get fname fs).events
      = pre ++ [Ev.sendData (pack4 0), Ev.sendStatus 'F']) := by
  rcases hfail with h | h
  · refine ⟨?_, ?_, ?_, ?_, ?_, ⟨[Ev.connect], ?_⟩⟩ <;>
      simp [serv_get, h, dataOf, controlOf, fsAccOf]
  · by_cases hd : startswithDot fname
    · refine ⟨?_, ?_, ?_, ?_, ?_, ⟨[Ev.connect], ?_⟩⟩ <;>
        simp [serv_get, hd, dataOf, controlOf, fsAccOf]
    · refine ⟨?_, ?_, ?_, ?_, ?_, ⟨[Ev.connect, Ev.checkExists fname], ?_⟩⟩ <;>
        simp [serv_get, hd, h, dataOf, controlOf, fsAccOf]

/-- Witness for C5 at a concrete input: getting a file absent from the
directory. -/
theorem get_failure_path_witness :
    (startswithDot "missing.txt" = true ∨ lookupFs [] "missing.txt" = none) ∧
    dataOf (serv_get "missing.txt" []).events = pack4 0 ∧
    controlOf (serv_get "missing.txt" []).events = ['F'] ∧
    Ev.acq ∉ (serv_get "missing.txt" []).events ∧
    (∀ e ∈ fsAccOf (serv_get "missing.txt" []).events,
      e = Ev.checkExists "missing.txt") ∧
    (serv_get "missing.txt" []).fs = [] ∧
    (∃ pre, (serv_get "missing.txt" []).events
      = pre ++ [Ev.sendData (pack4 0), Ev.sendStatus 'F']) := by
  have h := get_failure_path "missing.txt" [] (Or.inr (by decide))
  exact ⟨Or.inr (by decide), h.1, h.2.1, h.2.2.1, h.2.2.2.1, h.2.2.2.2.1,
    h.2.2.2.2.2⟩

/-- C10: the server's filename scope really is only the leading-dot check.
For any filename not beginning with a dot — including paths with slash or
dot-dot components — `get` opens exactly that path relative to the server's
working directory and sends its content, and `put` creates exactly that path
with the uploaded bytes, with a success status in both cases. -/
theorem get_put_path_passthrough (fname : String) (fs : Fs) (d : List Char)
    (hdot : startswithDot fname = false) :
    (lookupFs fs fname = some d →
      (serv_get fname fs).events
        = [Ev.connect, Ev.checkExists fname, Ev.acq, Ev.readFile fname, Ev.rel,
           Ev.sendData (pack4 d.length ++ utf8Encode d), Ev.closeData,
           Ev.sendStatus 'S']) ∧
    (lookupFs fs fname = none →
      Ev.writeFile fname d ∈ (serv_put fname (some d) fs).events ∧
      lookupFs (serv_put fname (some d) fs).fs fname = some d ∧
      controlOf (serv_put fname (some d) fs).events = ['S', 'S']) := by
  constructor
  · intro h
    simp [serv_get, hdot, h]
  · intro h
    refine ⟨?_, ?_, ?_⟩ <;> simp [serv_put, hdot, h, lookupFs, controlOf]

/-- Witness for C10 at a concrete input: a path climbing out of the served
directory with dot-dot components is read by `get` exactly as sent. -/
theorem get_put_path_passthrough_witness :
    startswithDot "subdir/../../secret" = false ∧
    (lookupFs [("subdir/../../secret", ['s'])] "subdir/../../secret"
        = some ['s'] →
      (serv_get "subdir/../../secret" [("subdir/../../secret", ['s'])]).events
        = [Ev.connect, Ev.checkExists "subdir/../../secret", Ev.acq,
           Ev.readFile "subdir/../../secret", Ev.rel,
           Ev.sendData (pack4 (['s'] : List Char).length ++ utf8Encode ['s']),
           Ev.closeData, Ev.sendStatus 'S']) ∧
    (lookupFs [("subdir/../../secret", ['s'])] "subdir/../../secret" = none →
      Ev.writeFile "subdir/../../secret" ['s'] ∈
        (serv_put "subdir/../../secret" (some ['s'])
          [("subdir/../../secret", ['s'])]).events ∧
      lookupFs
          (serv_put "subdir/../../secret" (some ['s'])
            [("subdir/../../secret", ['s'])]).fs "subdir/../../secret"
        = some ['s'] ∧
      controlOf
          (serv_put "subdir/../../secret" (some ['s'])
            [("subdir/../../secret", ['s'])]).events
        = ['S', 'S']) := by
  have h := get_put_path_passthrough "subdir/../../secret"
    [("subdir/../../secret", ['s'])] ['s'] (by decide)
  exact ⟨by decide, h.1, h.2⟩

/-- Counterexample for C6: the two-token text getx y has get as its first
three characters, so `read_command` splits it — into exactly two tokens, so no
ValueError — and stores the unknown first token as the command; the dispatcher
then falls into its final else whose log statement raises `NameError`: the
session dies by an unhandled exception with the control connection never shut
down or closed, not by the claimed transition to Terminated with exactly one
close. -/
theorem serve_unknown_two_token_crashes :
    handleCommandText ['g', 'e', 't', 'x', ' ', 'y']
      = { outcome := SessionOutcome.crashed, closes := 0 } ∧
    ¬ handleCommandText ['g', 'e', 't', 'x', ' ', 'y']
        = { outcome := SessionOutcome.terminated, closes := 1 } := by
  decide

/-- C6 as amended: a received command text that is a parse violation — either
its first three characters are get or put but it does not split into exactly
two whitespace-separated tokens, or its first three characters are neither and
the text is not ls or quit — makes the session transition to Terminated with
the control connection shut down and closed exactly once.  (Texts whose first
three characters are get or put and which split into two tokens whose first
token is a longer word are excluded: those crash the session thread through an
unhandled NameError without any close, as the counterexample shows.) -/
theorem parse_violation_terminates_once (t : List Char)
    (hviol :
      ((t.take 3 = ['g', 'e', 't'] ∨ t.take 3 = ['p', 'u', 't']) ∧
        (pySplit t).length ≠ 2) ∨
      (¬ (t.take 3 = ['g', 'e', 't'] ∨ t.take 3 = ['p', 'u', 't']) ∧
        t ≠ ['l', 's'] ∧ t ≠ ['q', 'u', 'i', 't'])) :
    handleCommandText t
      = { outcome := SessionOutcome.terminated, closes := 1 } := by
  rcases hviol with ⟨htake, hlen⟩ | ⟨htake, hls, hquit⟩
  · have hls : t ≠ ['l', 's'] := by
      rintro rfl; rcases htake with h | h <;> simp at h
    have hquit : t ≠ ['q', 'u', 'i', 't'] := by
      rintro rfl; rcases htake with h | h <;> simp at h
    simp only [handleCommandText]
    rw [if_neg hls, if_neg hquit, if_pos htake]
    rcases hsp : pySplit t with _ | ⟨a, _ | ⟨b, _ | ⟨c, rest⟩⟩⟩ <;>
      rw [hsp] at hlen <;> first
      | rfl
      | simp at hlen
  · simp only [handleCommandText]
    rw [if_neg hls, if_neg hquit, if_neg htake]

/-- Witness for C6 at a concrete input: a three-token get command is killed
with exactly one close. -/
theorem parse_violation_terminates_once_witness :
    (((['g', 'e', 't', ' ', 'a', ' ', 'b'].take 3 = ['g', 'e', 't'] ∨
        ['g', 'e', 't', ' ', 'a', ' ', 'b'].take 3 = ['p', 'u', 't']) ∧
      (pySplit ['g', 'e', 't', ' ', 'a', ' ', 'b']).length ≠ 2)) ∧
    handleCommandText ['g', 'e', 't', ' ', 'a', ' ', 'b']
      = { outcome := SessionOutcome.terminated, closes := 1 } :=
  ⟨⟨Or.inl (by decide), by decide⟩,
    parse_violation_terminates_once _ (Or.inl ⟨Or.inl (by decide), by decide⟩)⟩

/-- Counterexample for C7: in the client's `ls`, a status byte that is
neither S nor F is merely logged to stderr and the handler returns to the
command loop — it is not fatal to the session and the control connection
stays open, contrary to the claim that every operation treats it as fatal. -/
theorem ls_unexpected_status_not_fatal :
    cli_ls_status (some 'X') = StatusAction.unexpectedLogged ∧
    isFatal (cli_ls_status (some 'X')) = false := by
  decide

/-- C7 as amended: an unexpected status byte is fatal to the client session
only on `put`'s interim status read, where anything other than S or F shuts
the data socket and calls disconnect_and_exit; on `ls`, `get`, and `put`'s
final status read it is logged to stderr and the session continues awaiting
the next command. -/
theorem unexpected_status_fatal_only_put_interim (c : Char)
    (hS : c ≠ 'S') (hF : c ≠ 'F') :
    cli_put_first_status (some c) = StatusAction.fatalExit ∧
    cli_ls_status (some c) = StatusAction.unexpectedLogged ∧
    cli_get_status (some c) = StatusAction.unexpectedLogged ∧
    cli_put_second_status (some c) = StatusAction.unexpectedLogged ∧
    isFatal (cli_ls_status (some c)) = false ∧
    isFatal (cli_get_status (some c)) = false ∧
    isFatal (cli_put_second_status (some c)) = false := by
  refine ⟨?_, ?_, ?_, ?_, ?_, ?_, ?_⟩ <;>
    simp [cli_put_first_status, cli_ls_status, cli_get_status,
      cli_put_second_status, isFatal, hS, hF]

/-- Witness for C7 at a concrete input: the byte X. -/
theorem unexpected_status_fatal_only_put_interim_witness :
    ('X' ≠ 'S' ∧ 'X' ≠ 'F') ∧
    cli_put_first_status (some 'X') = StatusAction.fatalExit ∧
    isFatal (cli_get_status (some 'X')) = false :=
  ⟨⟨by decide, by decide⟩,
    (unexpected_status_fatal_only_put_interim 'X' (by decide) (by decide)).1,
    (unexpected_status_fatal_only_put_interim 'X' (by decide)
      (by decide)).2.2.2.2.2.1⟩

/-- Counterexample for C8: on an empty directory listing the server sends TWO
status bytes on the control connection for the one ls command — F when it sees
the empty listing, then S after the unconditional data-channel send — not
exactly one. -/
theorem ls_empty_two_status_bytes :
    controlOf (serv_ls_events []) = ['F', 'S'] ∧
    (controlOf (serv_ls_events [])).length ≠ 1 := by
  decide

/-- C8 as amended: when the directory listing is empty the server reports F,
yet still connects to the client's data port and sends the data frame with the
empty payload and its four-byte size header; the operation then ends by
sending a second, final S status byte, for two status bytes in total on the
control connection for this command. -/
theorem ls_empty_listing_behavior :
    serv_ls_events []
      = [Ev.acq, Ev.listDir, Ev.rel, Ev.sendStatus 'F', Ev.connect,
         Ev.sendData (pack4 0), Ev.sendStatus 'S'] ∧
    controlOf (serv_ls_events []) = ['F', 'S'] := by
  decide

/-- C9: uploads are serialized by the shared lock.  First, the sequential
embedding of `put` shows the payload receive and the file write happen
strictly between the lock acquisition and its release.  Second, in the
two-thread interleaving model, under every schedule no reachable state has
both threads inside the locked section, and a thread inside it — in
particular while blocked receiving its upload — is exactly the lock holder.
Third, whenever a schedule lets both uploads complete, each of the two
distinct filenames holds exactly the payload its own client sent. -/
theorem put_lock_serializes_uploads (n0 n1 : String) (p0 p1 : List Char)
    (fs0 : Fs) (sched : List Bool)
    (hne : n0 ≠ n1) (hd0 : startswithDot n0 = false)
    (hd1 : startswithDot n1 = false)
    (hf0 : lookupFs fs0 n0 = none) (hf1 : lookupFs fs0 n1 = none) :
    (serv_put n0 (some p0) fs0).events
      = [Ev.connect, Ev.acq, Ev.checkExists n0, Ev.sendStatus 'S',
         Ev.recvUpload, Ev.writeFile n0 p0, Ev.sendStatus 'S', Ev.rel,
         Ev.closeData] ∧
    (∀ ss : List Bool,
      ¬ (inCS (twoPutRun n0 p0 n1 p1 fs0 ss).pcF = true ∧
          inCS (twoPutRun n0 p0 n1 p1 fs0 ss).pcT = true) ∧
      (inCS (twoPutRun n0 p0 n1 p1 fs0 ss).pcF = true →
        (twoPutRun n0 p0 n1 p1 fs0 ss).lockBy = some false) ∧
      (inCS (twoPutRun n0 p0 n1 p1 fs0 ss).pcT = true →
        (twoPutRun n0 p0 n1 p1 fs0 ss).lockBy = some true)) ∧
    ((twoPutRun n0 p0 n1 p1 fs0 sched).pcF = PutPC.pDoneOk →
      (twoPutRun n0 p0 n1 p1 fs0 sched).pcT = PutPC.pDoneOk →
      lookupFs (twoPutRun n0 p0 n1 p1 fs0 sched).fs n0 = some p0 ∧
      lookupFs (twoPutRun n0 p0 n1 p1 fs0 sched).fs n1 = some p1) := by
  refine ⟨?_, ?_, ?_⟩
  · simp [serv_put, hd0, hf0]
  · intro ss
    obtain ⟨l0, l1, k0, k1, f0, f1⟩ :=
      twoPutRun_inv n0 n1 p0 p1 fs0 hne hd0 hd1 hf0 hf1 ss
    refine ⟨?_, fun h => l0.mp h, fun h => l1.mp h⟩
    rintro ⟨h0, h1⟩
    have e0 := l0.mp h0
    have e1 := l1.mp h1
    rw [e0] at e1
    simp at e1
  · intro h0 h1
    obtain ⟨l0, l1, k0, k1, f0, f1⟩ :=
      twoPutRun_inv n0 n1 p0 p1 fs0 hne hd0 hd1 hf0 hf1 sched
    constructor
    · rw [f0, h0]; simp [wrotePC]
    · rw [f1, h1]; simp [wrotePC]

/-- Witness for C9 at a concrete input: two distinct fresh filenames, an
empty directory, and the schedule that runs thread one to completion and then
thread two; both complete and each file holds its own payload. -/
theorem put_lock_serializes_uploads_witness :
    (("a" : String) ≠ "b" ∧ startswithDot "a" = false ∧
      startswithDot "b" = false ∧ lookupFs [] "a" = none ∧
      lookupFs [] "b" = none) ∧
    (twoPutRun "a" ['x'] "b" ['y'] []
        (List.replicate 9 false ++ List.replicate 9 true)).pcF
      = PutPC.pDoneOk ∧
    (twoPutRun "a" ['x'] "b" ['y'] []
        (List.replicate 9 false ++ List.replicate 9 true)).pcT
      = PutPC.pDoneOk ∧
    lookupFs
        (twoPutRun "a" ['x'] "b" ['y'] []
          (List.replicate 9 false ++ List.replicate 9 true)).fs "a"
      = some ['x'] ∧
    lookupFs
        (twoPutRun "a" ['x'] "b" ['y'] []
          (List.replicate 9 false ++ List.replicate 9 true)).fs "b"
      = some ['y'] := by
  have h := (put_lock_serializes_uploads "a" "b" ['x'] ['y'] []
    (List.replicate 9 false ++ List.replicate 9 true) (by decide) (by decide)
    (by decide) (by decide) (by decide)).2.2 (by decide) (by decide)
  exact ⟨⟨by decide, by decide, by decide, by decide, by decide⟩,
    by decide, by decide, h.1, h.2⟩
